import Mathlib

/-!
Verification of the DiskANN configuration layer of knowhere
(src/index/diskann/diskann_config.h) and, where the spec describes core
components whose code is not in the repository snapshot, spec-modelled
definitions of those components.

Machine integers (CFG_INT = int32) are modelled as Int: none of the values
involved in the checked claims approaches the 32-bit range, and the source
performs no arithmetic that can overflow there (std::max and comparisons
only).  CFG_FLOAT fields are modelled as Rat; the concrete constants that
appear in the declarations (-1.0, 1.0, 2.0, 5.0) are exactly representable.
-/

namespace Knowhere

/-- Result status of a config check; the source returns knowhere::Status.
Only the constructors reachable from DiskANNConfig code are modelled. -/
inductive Status where
  | success : Status
  | out_of_range_in_json : Status
deriving DecidableEq, Repr

/-- constexpr kSearchListSizeMinValue = 16 (diskann_config.h line 21). -/
def kSearchListSizeMinValue : Int := 16

/-- constexpr kDefaultSearchListSizeForBuild = 128 (diskann_config.h line 22). -/
def kDefaultSearchListSizeForBuild : Int := 128

/-- DiskANNConfig (diskann_config.h).  Optional fields (CFG_INT etc. are
std::optional wrappers) are Option-valued; `k` is the top-k field inherited
from BaseConfig, always populated on the search path, hence plain Int. -/
structure DiskANNConfig where
  max_degree : Option Int := none
  search_list_size : Option Int := none
  pq_code_budget_gb : Option Rat := none
  build_dram_budget_gb : Option Rat := none
  disk_pq_dims : Option Int := none
  accelerate_build : Option Bool := none
  search_cache_budget_gb : Option Rat := none
  warm_up : Option Bool := none
  use_bfs_cache : Option Bool := none
  beamwidth : Option Int := none
  min_k : Option Int := none
  max_k : Option Int := none
  search_list_and_k_ratio : Option Rat := none
  filter_threshold : Option Rat := none
  metric_type : Option String := none
  k : Int := 10
deriving DecidableEq, Repr

/-- DiskANNConfig::CheckAndAdjustForSearch (diskann_config.h lines 152-164).
The C++ signature takes the config by `this` and an err_msg out-pointer;
here it maps the pre-state (config, err_msg) to (Status, config, err_msg).
If search_list_size is unset it becomes max(k, kSearchListSizeMinValue);
otherwise, if k exceeds it, err_msg is written and
Status::out_of_range_in_json is returned; otherwise success. -/
def CheckAndAdjustForSearch (cfg : DiskANNConfig) (errMsg : String) :
    Status × DiskANNConfig × String :=
  match cfg.search_list_size with
  | none =>
      (Status.success,
       { cfg with search_list_size := some (max cfg.k kSearchListSizeMinValue) },
       errMsg)
  | some s =>
      if cfg.k > s then
        (Status.out_of_range_in_json, cfg,
         "search_list_size(" ++ toString s ++ ") should be larger than k(" ++
           toString cfg.k ++ ")")
      else
        (Status.success, cfg, errMsg)

/-- DiskANNConfig::CheckAndAdjustForBuild (diskann_config.h lines 166-172).
If search_list_size is unset it becomes kDefaultSearchListSizeForBuild;
the function always returns Status::success. -/
def CheckAndAdjustForBuild (cfg : DiskANNConfig) : Status × DiskANNConfig :=
  match cfg.search_list_size with
  | none =>
      (Status.success, { cfg with search_list_size := some kDefaultSearchListSizeForBuild })
  | some _ => (Status.success, cfg)

/-- C1: CheckAndAdjustForSearch returns Status::out_of_range_in_json exactly
when search_list_size has a value smaller than k, and Status::success in
every other case (unset, equal to k, or greater than k). -/
theorem C1_searchCheck_status (cfg : DiskANNConfig) (errMsg : String) :
    ((CheckAndAdjustForSearch cfg errMsg).1 = Status.out_of_range_in_json ↔
      ∃ s, cfg.search_list_size = some s ∧ s < cfg.k) ∧
    ((CheckAndAdjustForSearch cfg errMsg).1 = Status.success ↔
      (cfg.search_list_size = none ∨
        ∃ s, cfg.search_list_size = some s ∧ cfg.k ≤ s)) := by
  rcases h : cfg.search_list_size with _ | s
  · simp [CheckAndAdjustForSearch, h]
  · simp only [CheckAndAdjustForSearch, h]
    by_cases hk : cfg.k > s
    · rw [if_pos hk]
      refine ⟨iff_of_true rfl ⟨s, rfl, hk⟩,
        iff_of_false (fun hc => Status.noConfusion hc) ?_⟩
      rintro (hc | ⟨t, ht, hkt⟩)
      · exact Option.noConfusion hc
      · injection ht with ht
        omega
    · rw [if_neg hk]
      refine ⟨iff_of_false (fun hc => Status.noConfusion hc) ?_, iff_of_true rfl ?_⟩
      · rintro ⟨t, ht, hkt⟩
        injection ht with ht
        omega
      · exact Or.inr ⟨s, rfl, by omega⟩

/-- C1 witness: at search_list_size = 3, k = 10 the status is
out_of_range_in_json; at search_list_size unset, k = 10 it is success. -/
theorem C1_searchCheck_status_witness :
    (CheckAndAdjustForSearch { search_list_size := some 3, k := 10 } "").1 =
      Status.out_of_range_in_json ∧
    (CheckAndAdjustForSearch { k := 10 } "").1 = Status.success :=
  ⟨(C1_searchCheck_status { search_list_size := some 3, k := 10 } "").1.mpr
      ⟨3, rfl, by decide⟩,
   (C1_searchCheck_status { k := 10 } "").2.mpr (Or.inl rfl)⟩

/-- C2: when search_list_size is unset, CheckAndAdjustForSearch returns
success and sets search_list_size to max(k, kSearchListSizeMinValue). -/
theorem C2_searchCheck_default (cfg : DiskANNConfig) (errMsg : String)
    (h : cfg.search_list_size = none) :
    (CheckAndAdjustForSearch cfg errMsg).1 = Status.success ∧
    (CheckAndAdjustForSearch cfg errMsg).2.1.search_list_size =
      some (max cfg.k kSearchListSizeMinValue) := by
  simp [CheckAndAdjustForSearch, h]

/-- C2 witness: with k = 5 and search_list_size unset, the defaulted value
is max(5, 16) = 16. -/
theorem C2_searchCheck_default_witness :
    (CheckAndAdjustForSearch { k := 5 } "").1 = Status.success ∧
    (CheckAndAdjustForSearch { k := 5 } "").2.1.search_list_size = some 16 := by
  have h := C2_searchCheck_default { k := 5 } "" rfl
  refine ⟨h.1, ?_⟩
  rw [h.2]
  decide

/-- C3 counterexample: with k = 10 and search_list_size unset, the default
supplied by CheckAndAdjustForSearch is 16, not 128 as the claim states. -/
theorem C3_searchCheck_k10_not_128 :
    (CheckAndAdjustForSearch { k := 10 } "").2.1.search_list_size ≠ some 128 := by
  decide

/-- C3 amended: when Search is invoked with k = 10 and search_list_size
unset, the default supplied is max(10, 16) = 16; 128 is the build-path
default, not the search-path one. -/
theorem C3_searchCheck_k10_defaults_16 :
    (CheckAndAdjustForSearch { k := 10 } "").1 = Status.success ∧
    (CheckAndAdjustForSearch { k := 10 } "").2.1.search_list_size = some 16 := by
  decide

/-- C4: CheckAndAdjustForBuild sets an unset search_list_size to the build
default kDefaultSearchListSizeForBuild = 128, leaves a set one unchanged,
and returns success. -/
theorem C4_buildCheck_default (cfg : DiskANNConfig) :
    (cfg.search_list_size = none →
      (CheckAndAdjustForBuild cfg).2.search_list_size =
        some kDefaultSearchListSizeForBuild) ∧
    (∀ s, cfg.search_list_size = some s → (CheckAndAdjustForBuild cfg).2 = cfg) ∧
    (CheckAndAdjustForBuild cfg).1 = Status.success := by
  rcases h : cfg.search_list_size with _ | s
  · refine ⟨fun _ => by simp [CheckAndAdjustForBuild, h], fun t ht => ?_,
      by simp [CheckAndAdjustForBuild, h]⟩
    exact Option.noConfusion ht
  · refine ⟨fun hc => ?_, fun t ht => by simp [CheckAndAdjustForBuild, h],
      by simp [CheckAndAdjustForBuild, h]⟩
    exact Option.noConfusion hc

/-- C4 witness: an unset search_list_size becomes 128 for build; a set
value 7 survives the build check unchanged. -/
theorem C4_buildCheck_default_witness :
    (CheckAndAdjustForBuild ({} : DiskANNConfig)).2.search_list_size = some 128 ∧
    (CheckAndAdjustForBuild { search_list_size := some 7 }).2 =
      { search_list_size := some 7 } :=
  ⟨(C4_buildCheck_default {}).1 rfl,
   (C4_buildCheck_default { search_list_size := some 7 }).2.1 7 rfl⟩

/-- C5: whenever CheckAndAdjustForSearch rejects, the err_msg handed back
to the caller is exactly the formatted message that names the offending
field search_list_size and carries both violated values, and the status is
the non-success out_of_range_in_json, so the rejection is surfaced. -/
theorem C5_searchCheck_err_msg (cfg : DiskANNConfig) (errMsg : String)
    (s : Int) (h : cfg.search_list_size = some s) (hk : s < cfg.k) :
    (CheckAndAdjustForSearch cfg errMsg).1 = Status.out_of_range_in_json ∧
    (CheckAndAdjustForSearch cfg errMsg).2.2 =
      "search_list_size(" ++ toString s ++ ") should be larger than k(" ++
        toString cfg.k ++ ")" := by
  have hgt : cfg.k > s := hk
  simp [CheckAndAdjustForSearch, h, hgt]

/-- C5 witness: with search_list_size = 3 and k = 10 the message written is
"search_list_size(3) should be larger than k(10)". -/
theorem C5_searchCheck_err_msg_witness :
    (CheckAndAdjustForSearch { search_list_size := some 3, k := 10 } "").2.2 =
      "search_list_size(3) should be larger than k(10)" := by
  have h := C5_searchCheck_err_msg { search_list_size := some 3, k := 10 } ""
      3 rfl (by decide)
  rw [h.2]
  rfl

/-- C8: when CheckAndAdjustForSearch rejects, the returned configuration is
exactly the input configuration, every field included; only the err_msg
component of the result differs from its input. -/
theorem C8_searchCheck_error_preserves_config (cfg : DiskANNConfig)
    (errMsg : String) (s : Int) (h : cfg.search_list_size = some s)
    (hk : s < cfg.k) :
    (CheckAndAdjustForSearch cfg errMsg).2.1 = cfg := by
  have hgt : cfg.k > s := hk
  simp [CheckAndAdjustForSearch, h, hgt]

/-- C8 witness: the rejected configuration with search_list_size = 3 and
k = 10 comes back unchanged. -/
theorem C8_searchCheck_error_preserves_config_witness :
    (CheckAndAdjustForSearch { search_list_size := some 3, k := 10 } "").2.1 =
      { search_list_size := some 3, k := 10 } :=
  C8_searchCheck_error_preserves_config { search_list_size := some 3, k := 10 }
    "" 3 rfl (by decide)

/-- C9: CheckAndAdjustForBuild succeeds on every configuration, and its
only effect is replacing the search_list_size field by its value defaulted
to kDefaultSearchListSizeForBuild when unset; no other field changes and no
cross-field validation happens. -/
theorem C9_buildCheck_always_success (cfg : DiskANNConfig) :
    (CheckAndAdjustForBuild cfg).1 = Status.success ∧
    (CheckAndAdjustForBuild cfg).2 =
      { cfg with
          search_list_size := some (cfg.search_list_size.getD kDefaultSearchListSizeForBuild) } := by
  rcases h : cfg.search_list_size with _ | s
  · exact ⟨by simp [CheckAndAdjustForBuild, h], by simp [CheckAndAdjustForBuild, h]⟩
  · refine ⟨by simp [CheckAndAdjustForBuild, h], ?_⟩
    simp only [CheckAndAdjustForBuild, h, Option.getD_some]
    cases cfg
    simp_all

/-- filter_threshold declared default (diskann_config.h line 147):
set_default(-1.0f). -/
def filterThresholdDefault : Rat := -1

/-- Modelled from the spec: the config framework (knowhere/config.h, which
is not in the snapshot) range-checks each supplied field value against its
declared range; for filter_threshold the declaration is
set_range(-1.0f, 1.0f) (diskann_config.h line 148). -/
def filterThresholdRangeCheck (v : Rat) : Bool := -1 ≤ v && v ≤ 1

/-- Modelled from the spec: the config framework substitutes the declared
default for an unset field before the value reaches the engine. -/
def effectiveFilterThreshold (cfg : DiskANNConfig) : Rat :=
  cfg.filter_threshold.getD filterThresholdDefault

/-- a negative filter_threshold selects the dynamic threshold calculator
given topk (source comment, diskann_config.h lines 73-76). -/
def usesDynamicThreshold (t : Rat) : Bool := t < 0

/-- max_degree declared range (diskann_config.h line 86): set_range(1, 2048),
modelled like filterThresholdRangeCheck. -/
def maxDegreeRangeCheck (v : Int) : Bool := 1 ≤ v && v ≤ 2048

/-- C10: filter_threshold defaults to -1.0 with accepted range [-1.0, 1.0];
a search configuration that leaves it unset therefore runs in the
dynamically-computed-threshold mode (negative effective value), and every
value in [-1.0, 0) passes validation. -/
theorem C10_filter_threshold (cfg : DiskANNConfig)
    (h : cfg.filter_threshold = none) :
    filterThresholdDefault = -1 ∧
    (∀ x : Rat, filterThresholdRangeCheck x = true ↔ -1 ≤ x ∧ x ≤ 1) ∧
    usesDynamicThreshold (effectiveFilterThreshold cfg) = true ∧
    (∀ x : Rat, -1 ≤ x → x < 0 → filterThresholdRangeCheck x = true) := by
  refine ⟨rfl, fun x => ?_, ?_, fun x h1 h2 => ?_⟩
  · simp [filterThresholdRangeCheck]
  · simp only [effectiveFilterThreshold, h, Option.getD_none, usesDynamicThreshold,
      filterThresholdDefault]
    norm_num
  · simp only [filterThresholdRangeCheck, Bool.and_eq_true, decide_eq_true_eq]
    exact ⟨h1, by linarith⟩

/-- C10 witness: the empty search config runs in dynamic-threshold mode and
the value -1/2 passes validation. -/
theorem C10_filter_threshold_witness :
    usesDynamicThreshold (effectiveFilterThreshold {}) = true ∧
    filterThresholdRangeCheck (-1/2) = true :=
  ⟨(C10_filter_threshold {} rfl).2.2.1,
   (C10_filter_threshold {} rfl).2.2.2 (-1/2) (by norm_num) (by norm_num)⟩

/-- Modelled from the spec: GraphBuilder occlusion pruning.  The builder
code is not in the snapshot; per the spec (sections 4.2 and 3), each
insertion gathers candidate neighbors by greedy search and prunes them to
keep the neighbor set within maxDegree, under the GraphNode invariant that
the neighbor set contains no self-reference and no duplicates.  Pruning is
modelled as: drop the node itself, drop duplicates, keep at most maxDegree
survivors; the occlusion rule only selects which candidates survive and is
abstracted by the arbitrary candidate order. -/
def pruneNeighbors (maxDegree : Nat) (node : Nat) (candidates : List Nat) :
    List Nat :=
  ((candidates.filter (fun c => c ≠ node)).dedup).take maxDegree

/-- Modelled from the spec: a built graph assigns to each of the n nodes
the pruned candidate list produced for it during its insertion. -/
def buildGraph (maxDegree : Nat) (cand : Nat → List Nat) (n : Nat) :
    List (Nat × List Nat) :=
  (List.range n).map (fun i => (i, pruneNeighbors maxDegree i (cand i)))

/-- C6: max_degree is accepted exactly in the range [1, 2048], and in every
built graph each node carries at most maxDegree neighbors with no
duplicates and no self-reference. -/
theorem C6_graph_invariants (md : Int) (maxDegree n : Nat)
    (cand : Nat → List Nat) (node : Nat) (nbrs : List Nat)
    (hmem : (node, nbrs) ∈ buildGraph maxDegree cand n) :
    (maxDegreeRangeCheck md = true ↔ 1 ≤ md ∧ md ≤ 2048) ∧
    nbrs.length ≤ maxDegree ∧ nbrs.Nodup ∧ node ∉ nbrs := by
  have hrange : maxDegreeRangeCheck md = true ↔ 1 ≤ md ∧ md ≤ 2048 := by
    simp [maxDegreeRangeCheck]
  obtain ⟨i, _, hi⟩ := List.mem_map.mp hmem
  obtain ⟨hnode, hnbrs⟩ := Prod.mk.injEq .. ▸ hi
  subst hnode
  subst hnbrs
  refine ⟨hrange, List.length_take_le _ _, ?_, ?_⟩
  · exact ((List.take_sublist _ _).nodup (List.nodup_dedup _))
  · intro hmem2
    have hmem3 := (List.take_sublist _ _).subset hmem2
    have hmem4 := (List.dedup_subset _) hmem3
    have := (List.mem_filter.mp hmem4).2
    simp at this

/-- C6 witness: with maxDegree = 2 and raw candidates [0, 1, 1, 2] for node
0, the built neighbor list is [1, 2]: within degree, duplicate-free, and
free of the self-reference 0. -/
theorem C6_graph_invariants_witness :
    (maxDegreeRangeCheck 48 = true ↔ (1 : Int) ≤ 48 ∧ (48 : Int) ≤ 2048) ∧
    List.length [1, 2] ≤ 2 ∧ List.Nodup [1, 2] ∧ 0 ∉ [1, 2] :=
  C6_graph_invariants 48 2 3 (fun _ => [0, 1, 1, 2]) 0 [1, 2] (by decide)

/-- Modelled from the spec: the RangeSearchController K-doubling loop.  The
controller code is not in the snapshot; per the spec (section 4.6), rounds
start at k = minK, and after a round at k the loop continues exactly when
the farthest distance returned by that round is still within the radius
(abstracted as the predicate cont) and the doubled k would not exceed maxK.
min_k is validated to the range [1, int-max] (diskann_config.h lines
130-134), so k stays positive throughout; the positivity guard records
this.  The value of the function is the list of k values of the executed
rounds. -/
def doublingRounds (cont : Nat → Bool) (maxK : Nat) (k : Nat) : List Nat :=
  if h : 0 < k ∧ cont k = true ∧ 2 * k ≤ maxK then
    k :: doublingRounds cont maxK (2 * k)
  else
    [k]
termination_by maxK - k
decreasing_by omega

/-- Modelled from the spec: each round at k calls BeamSearchEngine top-K
search with searchListSize = k times the configured
search_list_and_k_ratio. -/
def roundSearchListSize (ratio : Rat) (k : Nat) : Rat := (k : Rat) * ratio

/-- Modelled from the spec: the (k, searchListSize) pairs of the top-K
calls a range search issues. -/
def rangeSearchCalls (cont : Nat → Bool) (maxK minK : Nat) (ratio : Rat) :
    List (Nat × Rat) :=
  (doublingRounds cont maxK minK).map (fun k => (k, roundSearchListSize ratio k))

theorem doublingRounds_length_le (cont : Nat → Bool) (maxK : Nat) :
    ∀ n k, maxK - k = n → 0 < k → k ≤ maxK →
      (doublingRounds cont maxK k).length ≤ Nat.log 2 (maxK / k) + 1 := by
  intro n
  induction n using Nat.strong_induction_on with
  | _ n ih =>
    intro k hn hk hle
    rw [doublingRounds]
    split
    · rename_i h
      obtain ⟨h1, h2, h3⟩ := h
      have hk2 : 2 ≤ maxK / k := (Nat.le_div_iff_mul_le hk).mpr (by omega)
      have hdiv : maxK / (2 * k) = maxK / k / 2 := by
        rw [Nat.div_div_eq_div_mul, Nat.mul_comm]
      have hrec := ih (maxK - 2 * k) (by omega) (2 * k) rfl (by omega) (by omega)
      rw [hdiv, Nat.log_div_base] at hrec
      have hpos : 0 < Nat.log 2 (maxK / k) := Nat.log_pos (by omega) hk2
      simp only [List.length_cons]
      omega
    · simp

/-- C7: a range search with parameters minK, maxK, ratio starts its
K-doubling loop at k = minK, each round calls top-K search with
searchListSize = k times ratio, and the loop runs at most
log2(maxK / minK) + 1 rounds (Nat.log 2 is the floor base-2 logarithm). -/
theorem C7_range_search_doubling (cont : Nat → Bool) (minK maxK : Nat)
    (ratio : Rat) (hmin : 0 < minK) (hle : minK ≤ maxK) :
    (doublingRounds cont maxK minK).head? = some minK ∧
    (∀ p ∈ rangeSearchCalls cont maxK minK ratio,
        p.2 = (p.1 : Rat) * ratio) ∧
    (doublingRounds cont maxK minK).length ≤ Nat.log 2 (maxK / minK) + 1 := by
  refine ⟨?_, ?_, doublingRounds_length_le cont maxK _ minK rfl hmin hle⟩
  · rw [doublingRounds]
    split <;> rfl
  · intro p hp
    obtain ⟨q, _, hq⟩ := List.mem_map.mp hp
    rw [← hq]
    rfl

/-- C7 witness: with the declared defaults min_k = 100, max_k = 10000,
ratio = 2 and a round predicate that always asks to continue, the loop
starts at 100 and executes at most log2(100) + 1 = 7 rounds. -/
theorem C7_range_search_doubling_witness :
    (doublingRounds (fun _ => true) 10000 100).head? = some 100 ∧
    (∀ p ∈ rangeSearchCalls (fun _ => true) 10000 100 2,
        p.2 = (p.1 : Rat) * 2) ∧
    (doublingRounds (fun _ => true) 10000 100).length ≤
      Nat.log 2 (10000 / 100) + 1 :=
  C7_range_search_doubling (fun _ => true) 100 10000 2 (by decide) (by decide)

end Knowhere
